import Mathlib

/-!
Shallow embedding of the model-resilience pipeline of this repository
(`app/service/processing/{base,config,factory,pipeline}.py`).

Modelling conventions:
* Python `datetime.now()` timestamps are natural numbers (seconds on a
  monotone clock); the 5-minute health TTL is 300 seconds.
* Python floats used for configuration bounds and rates are rationals `ℚ`.
  Wall-clock durations of actual processing are outside the model; every
  `processing_time`/`total_time` the embedded code would obtain from
  `time.time()` differences is taken as `0` (no claim depends on the value).
* The class-level dictionaries `ModelFactory._instances` and
  `ModelFactory._health_status` are one explicit `FactoryState` value
  threaded through every operation; it is deliberately NOT a field of a
  factory object, mirroring the fact that in the source the two dicts are
  class attributes shared by all `ModelFactory` objects.
* Backend behaviour (whether `_create_model` succeeds, what
  `remove_background` does on each attempt) is an environment `Env`
  parameter, since the adapters wrap external models that are out of scope.
* `try/except` control flow becomes `Except String`; the state mutations
  performed before an exception is raised persist, so fallible operations
  return the updated state alongside the error.
-/

namespace Pipeline

/-- `ModelType` enumeration from `base.py` (`u2net`, `rmbg-2.0-local`,
`rmbg-2.0-api`). -/
inductive ModelType where
  | u2net
  | rmbg2Local
  | rmbg2Api
deriving DecidableEq, Repr

/-- The string value of each enum member (`ModelType.U2NET = "u2net"` etc.). -/
def ModelType.value : ModelType → String
  | .u2net => "u2net"
  | .rmbg2Local => "rmbg-2.0-local"
  | .rmbg2Api => "rmbg-2.0-api"

/-- `ModelType(s)` in Python: succeeds on the three member values, raises
`ValueError` otherwise (modelled as `none`). -/
def ModelType.ofString (s : String) : Option ModelType :=
  if s = "u2net" then some .u2net
  else if s = "rmbg-2.0-local" then some .rmbg2Local
  else if s = "rmbg-2.0-api" then some .rmbg2Api
  else none

/-- The message of the `ValueError` raised by `ModelType(s)` for an unknown
string `s`. -/
def invalidModelTypeMsg (s : String) : String :=
  s!"{s} is not a valid ModelType"

/-- `ProcessingStatus` enumeration from `base.py`.  `part` stands for the
source's `PARTIAL` member, which no aggregation code ever assigns. -/
inductive ProcessingStatus where
  | pending
  | processing
  | success
  | failed
  | part
deriving DecidableEq, Repr

/-- `ModelHealthStatus` enumeration from `base.py`. -/
inductive ModelHealthStatus where
  | healthy
  | degraded
  | unhealthy
  | unknown
deriving DecidableEq, Repr

/-- A PIL image, abstracted to the attributes the pipeline reads:
`mode` and `size`. -/
structure Image where
  mode : String
  size : Nat × Nat
deriving DecidableEq, Repr

/-- `ModelHealth` dataclass from `base.py`; `last_check` is the timestamp
filled in by `__post_init__` with `datetime.now()`. -/
structure ModelHealth where
  model_type : ModelType
  status : ModelHealthStatus
  message : String
  last_check : Nat
deriving DecidableEq, Repr

/-- `ModelHealth.is_healthy` property. -/
def ModelHealth.is_healthy (h : ModelHealth) : Bool :=
  h.status = ModelHealthStatus.healthy

/-- The metadata dict a successful `process` call attaches to its result. -/
structure ResultMetadata where
  input_size : Nat × Nat
  output_size : Nat × Nat
  output_mode : String
deriving DecidableEq, Repr

/-- `ProcessingResult` dataclass from `base.py` (the `timestamp` field,
always `datetime.now()` at construction, is omitted: no claim reads it). -/
structure ProcessingResult where
  status : ProcessingStatus
  image : Option Image := none
  model_used : Option ModelType := none
  processing_time : Option ℚ := none
  error : Option String := none
  metadata : Option ResultMetadata := none
deriving DecidableEq, Repr

/-- `ProcessingResult.success` property. -/
def ProcessingResult.success (r : ProcessingResult) : Bool :=
  r.status = ProcessingStatus.success

/-- `BatchProcessingResult` dataclass from `base.py`. -/
structure BatchProcessingResult where
  total : Nat
  successful : Nat
  failed : Nat
  results : List ProcessingResult
  total_time : ℚ
  average_time : ℚ
deriving DecidableEq, Repr

/-- `BatchProcessingResult.success_rate` property:
`successful / total if total > 0 else 0.0`. -/
def BatchProcessingResult.success_rate (b : BatchProcessingResult) : ℚ :=
  if b.total > 0 then (b.successful : ℚ) / (b.total : ℚ) else 0

/-! ## Configuration (`config.py`)

`PipelineConfig` is a pydantic `BaseModel`; numeric fields carry `ge`/`le`
bounds that pydantic enforces when the object is constructed.  The string
field `default_model` and the list field `fallback_chain` carry no
validator.  `RawConfig` is the tuple of values handed to the constructor;
`PipelineConfig.validate` is pydantic's construction-time check. -/

/-- A validated `PipelineConfig` (fields as in `config.py`). -/
structure PipelineConfig where
  default_model : String := "u2net"
  fallback_enabled : Bool := true
  fallback_chain : List String := ["rmbg-2.0-local", "rmbg-2.0-api", "u2net"]
  batch_size : Nat := 10
  timeout : ℚ := 30
  max_retries : Nat := 2
  retry_delay : ℚ := 1
  enable_preprocessing : Bool := true
  enable_postprocessing : Bool := true
  device : String := "auto"
  local_model_path : Option String := none
  collect_metrics : Bool := true
  log_level : String := "INFO"
deriving DecidableEq, Repr

/-- The raw field values supplied to the `PipelineConfig` constructor,
before pydantic validation. -/
structure RawConfig where
  default_model : String := "u2net"
  fallback_enabled : Bool := true
  fallback_chain : List String := ["rmbg-2.0-local", "rmbg-2.0-api", "u2net"]
  batch_size : Int := 10
  timeout : ℚ := 30
  max_retries : Int := 2
  retry_delay : ℚ := 1
  enable_preprocessing : Bool := true
  enable_postprocessing : Bool := true
  device : String := "auto"
  local_model_path : Option String := none
  collect_metrics : Bool := true
  log_level : String := "INFO"
deriving Repr

/-- Pydantic construction of `PipelineConfig`: each bounded field is checked
against its `ge`/`le` constraints (`batch_size ∈ [1,100]`,
`timeout ∈ [1,300]`, `max_retries ∈ [0,5]`, `retry_delay ∈ [1/10,10]`);
a violation raises a `ValidationError`.  `default_model`,
`fallback_chain`, `device` and `log_level` are unconstrained. -/
def PipelineConfig.validate (r : RawConfig) : Except String PipelineConfig :=
  if r.batch_size < 1 ∨ 100 < r.batch_size then
    Except.error "ValidationError: batch_size out of range [1, 100]"
  else if r.timeout < 1 ∨ 300 < r.timeout then
    Except.error "ValidationError: timeout out of range [1.0, 300.0]"
  else if r.max_retries < 0 ∨ 5 < r.max_retries then
    Except.error "ValidationError: max_retries out of range [0, 5]"
  else if r.retry_delay < 1/10 ∨ 10 < r.retry_delay then
    Except.error "ValidationError: retry_delay out of range [0.1, 10.0]"
  else
    Except.ok
      { default_model := r.default_model
        fallback_enabled := r.fallback_enabled
        fallback_chain := r.fallback_chain
        batch_size := r.batch_size.toNat
        timeout := r.timeout
        max_retries := r.max_retries.toNat
        retry_delay := r.retry_delay
        enable_preprocessing := r.enable_preprocessing
        enable_postprocessing := r.enable_postprocessing
        device := r.device
        local_model_path := r.local_model_path
        collect_metrics := r.collect_metrics
        log_level := r.log_level }

/-! ## Model factory (`factory.py`) -/

/-- A constructed adapter instance (`U2NetAdapter` / `RMBG2LocalAdapter` /
`RMBG2APIAdapter`).  `id` distinguishes distinct constructions of the same
type; `mtype` records which adapter class it is. -/
structure Instance where
  id : Nat
  mtype : ModelType
deriving DecidableEq, Repr

/-- `hasattr(model, 'remove_background')` for a constructed adapter: all
three adapter classes in `models.py` define `remove_background`, so the
check is true for every instance the factory can hold. -/
def Instance.hasRemoveBackground (_ : Instance) : Bool := true

/-- The shared class-level state of `ModelFactory`: the `_instances` dict
and the `_health_status` dict (keyed by `ModelType`), plus a counter
supplying fresh instance identities.  In the source these dicts are class
attributes, so there is exactly one such state in the process, shared by
every `ModelFactory` object. -/
structure FactoryState where
  instances : ModelType → Option Instance
  health : ModelType → Option ModelHealth
  nextId : Nat

/-- The state at interpreter start: both class-level dicts empty. -/
def FactoryState.initial : FactoryState :=
  { instances := fun _ => none, health := fun _ => none, nextId := 0 }

/-- Environment: behaviour of the external backends.  `constructOk cfg t`
says whether `_create_model(t)` (run by a factory holding config `cfg`)
succeeds; `constructErr cfg t` is the exception message when it fails;
`exec t n img` is the outcome of the `n`-th `remove_background` call made
to a backend of type `t` on image `img` within one request. -/
inductive ExecResult where
  | ok (out : Image)
  | err (msg : String)
  | timeout
deriving DecidableEq, Repr

structure Env where
  constructOk : PipelineConfig → ModelType → Bool
  constructErr : PipelineConfig → ModelType → String
  exec : ModelType → Nat → Image → ExecResult

/-- Health TTL: `timedelta(minutes=5)` in seconds. -/
def healthTTL : Nat := 300

/-- Update one key of a `ModelType`-keyed map. -/
def setKey {α : Type} (m : ModelType → Option α) (k : ModelType) (v : Option α) :
    ModelType → Option α :=
  fun t => if t = k then v else m t

/-- `ModelFactory.check_health`: return the cached record if it is younger
than 5 minutes; otherwise recompute.  Recomputation: if no instance is
cached the record is `UNKNOWN`/"Model not initialized" (and, as in the
source, NOT stored); otherwise a cheap `hasattr` capability probe yields
`HEALTHY`/"Model is responsive" or `UNHEALTHY`/"Model is missing required
methods", and the new record is stored.  No inference call is made. -/
def healthProbe (now : Nat) (st : FactoryState) (t : ModelType) :
    ModelHealth × FactoryState :=
  match st.instances t with
  | none =>
      (⟨t, ModelHealthStatus.unknown, "Model not initialized", now⟩, st)
  | some m =>
      let h : ModelHealth :=
        if m.hasRemoveBackground then
          ⟨t, ModelHealthStatus.healthy, "Model is responsive", now⟩
        else
          ⟨t, ModelHealthStatus.unhealthy, "Model is missing required methods", now⟩
      (h, { st with health := setKey st.health t (some h) })

def check_health (now : Nat) (st : FactoryState) (t : ModelType) :
    ModelHealth × FactoryState :=
  match st.health t with
  | some h =>
      if now - h.last_check < healthTTL then (h, st)
      else healthProbe now st t
  | none => healthProbe now st t

/-- The fresh record the capability probe produces for a cached instance. -/
def freshHealthy (now : Nat) (t : ModelType) : ModelHealth :=
  ⟨t, ModelHealthStatus.healthy, "Model is responsive", now⟩

/-- The `try` block of `ModelFactory.get_model` that constructs a new
instance: on success the instance is cached and a fresh `HEALTHY` record
stored; on failure an `UNHEALTHY` record with the exception message is
stored and `None` returned. -/
def createModel (cfg : PipelineConfig) (env : Env) (now : Nat)
    (st : FactoryState) (t : ModelType) : Option Instance × FactoryState :=
  if env.constructOk cfg t then
    let inst : Instance := ⟨st.nextId, t⟩
    (some inst,
      { instances := setKey st.instances t (some inst)
        health := setKey st.health t
          (some ⟨t, ModelHealthStatus.healthy, "Model initialized successfully", now⟩)
        nextId := st.nextId + 1 })
  else
    (none,
      { st with
          health := setKey st.health t
            (some ⟨t, ModelHealthStatus.unhealthy, env.constructErr cfg t, now⟩) })

/-- `ModelFactory.get_model`: return the cached instance if present and
currently healthy; if unhealthy, evict it and construct afresh; if absent,
construct. -/
def get_model (cfg : PipelineConfig) (env : Env) (now : Nat)
    (st : FactoryState) (t : ModelType) : Option Instance × FactoryState :=
  match st.instances t with
  | some inst =>
      let r := check_health now st t
      if r.1.is_healthy then (some inst, r.2)
      else
        let st2 := { r.2 with instances := setKey r.2.instances t none }
        createModel cfg env now st2 t
  | none => createModel cfg env now st t

/-- `ModelFactory.get_default_model`: parse `config.default_model`; on a
`ValueError` return `None`, otherwise delegate to `get_model`. -/
def get_default_model (cfg : PipelineConfig) (env : Env) (now : Nat)
    (st : FactoryState) : Option Instance × FactoryState :=
  match ModelType.ofString cfg.default_model with
  | some t => get_model cfg env now st t
  | none => (none, st)

/-- The loop body of `ModelFactory.get_fallback_model`: walk the remaining
chain entries in order, skipping unparsable names and the excluded type,
returning the first instance `get_model` yields. -/
def fallbackWalk (cfg : PipelineConfig) (env : Env) (now : Nat)
    (exclude : Option ModelType) :
    List String → FactoryState → Option Instance × FactoryState
  | [], st => (none, st)
  | s :: rest, st =>
      match ModelType.ofString s with
      | none => fallbackWalk cfg env now exclude rest st
      | some t =>
          if exclude = some t then fallbackWalk cfg env now exclude rest st
          else
            let r := get_model cfg env now st t
            match r.1 with
            | some m => (some m, r.2)
            | none => fallbackWalk cfg env now exclude rest r.2

/-- `ModelFactory.get_fallback_model`: `None` immediately when fallback is
disabled, otherwise the chain walk. -/
def get_fallback_model (cfg : PipelineConfig) (env : Env) (now : Nat)
    (st : FactoryState) (exclude : Option ModelType) :
    Option Instance × FactoryState :=
  if cfg.fallback_enabled then fallbackWalk cfg env now exclude cfg.fallback_chain st
  else (none, st)

/-- `ModelFactory.clear_cache`: evict one type's instance and health record,
or all of them. -/
def clear_cache (st : FactoryState) (t : Option ModelType) : FactoryState :=
  match t with
  | some k =>
      { st with
          instances := setKey st.instances k none
          health := setKey st.health k none }
  | none =>
      { st with instances := fun _ => none, health := fun _ => none }

/-! ## Resilient executor and batch orchestrator (`pipeline.py`) -/

/-- Observable events of the retry loop in `_process_with_retry`:
`sleep d` is the `await asyncio.sleep(retry_delay)` before a retry,
`att n` is the `n`-th `remove_background` call (attempt index from 0). -/
inductive Event where
  | sleep (d : ℚ)
  | att (n : Nat)
deriving DecidableEq, Repr

/-- The error string recorded when `asyncio.wait_for` raises
`TimeoutError`: `f"Processing timeout after {self.config.timeout}s"`. -/
def timeoutMsg (cfg : PipelineConfig) : String :=
  s!"Processing timeout after {cfg.timeout}s"

/-- The message of the exception raised when the attempt loop exhausts:
`f"All retries failed. Last error: {last_error}"` (with Python's `None`
rendering when no attempt ever ran, which cannot happen for
`max_retries ≥ 0`). -/
def exhaustMsg : Option String → String
  | none => "All retries failed. Last error: None"
  | some e => s!"All retries failed. Last error: {e}"

/-- The `if attempt > 0: await asyncio.sleep(retry_delay)` line of the
retry loop: the sleep performed before attempt `k`, which is no sleep at
all before the first attempt. -/
def sleepPrefix (cfg : PipelineConfig) (k : Nat) : List Event :=
  if k = 0 then [] else [Event.sleep cfg.retry_delay]

/-- The body of `_process_with_retry`'s `for attempt in range(max_retries+1)`
loop: `k` is the current attempt index, the second argument the number of
loop iterations still allowed, the third the current `last_error`.  Each
iteration sleeps `retry_delay` first when `k > 0`, then calls the backend;
a timeout and an adapter error are handled identically (record the message,
continue).  Returns the outcome together with the event trace. -/
def retryAux (cfg : PipelineConfig) (env : Env) (t : ModelType) (img : Image) :
    Nat → Nat → Option String → Except String Image × List Event
  | _, 0, last => (Except.error (exhaustMsg last), [])
  | k, rem + 1, _ =>
      match env.exec t k img with
      | ExecResult.ok out => (Except.ok out, sleepPrefix cfg k ++ [Event.att k])
      | ExecResult.err m =>
          let r := retryAux cfg env t img (k + 1) rem (some m)
          (r.1, sleepPrefix cfg k ++ Event.att k :: r.2)
      | ExecResult.timeout =>
          let r := retryAux cfg env t img (k + 1) rem (some (timeoutMsg cfg))
          (r.1, sleepPrefix cfg k ++ Event.att k :: r.2)

/-- `BackgroundRemovalPipeline._process_with_retry`: up to
`max_retries + 1` attempts against the given backend. -/
def process_with_retry (cfg : PipelineConfig) (env : Env) (t : ModelType)
    (img : Image) : Except String Image × List Event :=
  retryAux cfg env t img 0 (cfg.max_retries + 1) none

/-- `_preprocess_image`: convert to RGB when needed. -/
def preprocess_image (img : Image) : Image :=
  if img.mode ≠ "RGB" then { img with mode := "RGB" } else img

/-- `_postprocess_image`: convert to RGBA when needed. -/
def postprocess_image (img : Image) : Image :=
  if img.mode ≠ "RGBA" then { img with mode := "RGBA" } else img

/-- `_get_model_type_from_adapter`: the `isinstance` chain over the three
adapter classes; an `Instance` records its class in `mtype`, so the chain
returns exactly that field (the final `U2NET` default arm is unreachable
for instances the factory builds). -/
def get_model_type_from_adapter (m : Instance) : ModelType := m.mtype

/-- The pipeline's `_metrics` dictionary. -/
structure Metrics where
  total_processed : Nat
  total_successful : Nat
  total_failed : Nat
  total_time : ℚ
deriving DecidableEq, Repr

/-- `_metrics` as initialized in `__init__` and `reset_metrics`. -/
def Metrics.initial : Metrics := ⟨0, 0, 0, 0⟩

/-- `_update_metrics`. -/
def update_metrics (m : Metrics) (success : Bool) (elapsed : ℚ) : Metrics :=
  { total_processed := m.total_processed + 1
    total_successful := if success then m.total_successful + 1 else m.total_successful
    total_failed := if success then m.total_failed else m.total_failed + 1
    total_time := m.total_time + elapsed }

/-- The dictionary returned by `get_metrics`. -/
structure MetricsSnapshot where
  total_processed : Nat
  total_successful : Nat
  total_failed : Nat
  total_time : ℚ
  success_rate : ℚ
  average_time : ℚ
deriving DecidableEq, Repr

/-- `get_metrics`: the raw counters plus the derived
`success_rate`/`average_time`, each guarded to `0` when nothing was
processed. -/
def get_metrics (m : Metrics) : MetricsSnapshot :=
  { total_processed := m.total_processed
    total_successful := m.total_successful
    total_failed := m.total_failed
    total_time := m.total_time
    success_rate :=
      if m.total_processed > 0 then
        (m.total_successful : ℚ) / (m.total_processed : ℚ)
      else 0
    average_time :=
      if m.total_processed > 0 then m.total_time / (m.total_processed : ℚ)
      else 0 }

/-- The tail of `process` once a model (or none) has been resolved: on
`model is None`, consult the fallback chain when permitted, else raise
`"No available models"`; with a model in hand run the retry loop and
postprocess.  Returns the output image and the `used_model_type` (or the
exception message), with the factory state as mutated so far. -/
def afterResolve (cfg : PipelineConfig) (env : Env) (now : Nat)
    (st : FactoryState) (img1 : Image) (model : Option Instance)
    (used : ModelType) (use_fallback : Bool) :
    Except String (Image × ModelType) × FactoryState :=
  let finish : Instance → ModelType → Except String (Image × ModelType) :=
    fun m used' =>
      match (process_with_retry cfg env m.mtype img1).1 with
      | Except.ok out =>
          Except.ok
            (if cfg.enable_postprocessing then postprocess_image out else out, used')
      | Except.error e => Except.error e
  match model with
  | some m => (finish m used, st)
  | none =>
      if use_fallback && cfg.fallback_enabled then
        let r := get_fallback_model cfg env now st (some used)
        match r.1 with
        | some m => (finish m (get_model_type_from_adapter m), r.2)
        | none => (Except.error "No available models", r.2)
      else (Except.error "No available models", st)

/-- The `try` block of `BackgroundRemovalPipeline.process`: preprocessing,
model resolution (requested type, or the default — in the default branch
`ModelType(self.config.default_model)` re-parses the name and raises
`ValueError` on an unknown one, after `get_default_model` has already
returned `None` without touching state), then `afterResolve`. -/
def processCore (cfg : PipelineConfig) (env : Env) (now : Nat)
    (st : FactoryState) (image : Image) (model_type : Option ModelType)
    (use_fallback : Bool) :
    Except String (Image × ModelType) × FactoryState :=
  let img1 := if cfg.enable_preprocessing then preprocess_image image else image
  match model_type with
  | some t =>
      let r := get_model cfg env now st t
      afterResolve cfg env now r.2 img1 r.1 t use_fallback
  | none =>
      let r := get_default_model cfg env now st
      match ModelType.ofString cfg.default_model with
      | none => (Except.error (invalidModelTypeMsg cfg.default_model), r.2)
      | some t => afterResolve cfg env now r.2 img1 r.1 t use_fallback
/-- `BackgroundRemovalPipeline.process`: wraps `processCore` in the
`try/except`, building a `SUCCESS` result (with metadata) or a `FAILED`
result carrying `str(e)`, and updating the metrics when
`collect_metrics` is set.  Wall-clock `processing_time` is `0` in the
model. -/
def process (cfg : PipelineConfig) (env : Env) (now : Nat)
    (st : FactoryState) (ms : Metrics) (image : Image)
    (model_type : Option ModelType) (use_fallback : Bool) :
    ProcessingResult × FactoryState × Metrics :=
  let img1 := if cfg.enable_preprocessing then preprocess_image image else image
  match processCore cfg env now st image model_type use_fallback with
  | (Except.ok (out, used), st') =>
      let ms' := if cfg.collect_metrics then update_metrics ms true 0 else ms
      ({ status := ProcessingStatus.success
         image := some out
         model_used := some used
         processing_time := some 0
         metadata := some ⟨img1.size, out.size, out.mode⟩ }, st', ms')
  | (Except.error e, st') =>
      let ms' := if cfg.collect_metrics then update_metrics ms false 0 else ms
      ({ status := ProcessingStatus.failed
         error := some e
         processing_time := some 0 }, st', ms')

/-- One slot of a batch: either the item's task raised an unexpected
internal fault (the `isinstance(result, Exception)` arm of
`process_batch`, which turns `str(result)` into a `FAILED` result with no
other fields), or the ordinary `process` call.  `faults idx` is the
environment's choice of such a fault for global item index `idx`. -/
def processItem (cfg : PipelineConfig) (env : Env) (now : Nat)
    (faults : Nat → Option String) (idx : Nat) (img : Image)
    (model_type : Option ModelType) (use_fallback : Bool)
    (st : FactoryState) (ms : Metrics) :
    ProcessingResult × FactoryState × Metrics :=
  match faults idx with
  | some e => ({ status := ProcessingStatus.failed, error := some e }, st, ms)
  | none => process cfg env now st ms img model_type use_fallback

/-- Per-item processing in input order.  Within a chunk `asyncio.gather`
schedules the items concurrently but its result list is ordered by input
position; effects on the shared factory state are modelled in input
order. -/
def processSeq (cfg : PipelineConfig) (env : Env) (now : Nat)
    (faults : Nat → Option String) (model_type : Option ModelType)
    (use_fallback : Bool) :
    List Image → Nat → FactoryState → Metrics →
      List ProcessingResult × FactoryState × Metrics
  | [], _, st, ms => ([], st, ms)
  | img :: rest, idx, st, ms =>
      let r1 := processItem cfg env now faults idx img model_type use_fallback st ms
      let r2 := processSeq cfg env now faults model_type use_fallback rest
        (idx + 1) r1.2.1 r1.2.2
      (r1.1 :: r2.1, r2.2.1, r2.2.2)

/-- The `for i in range(0, len(images), batch_size)` loop of
`process_batch`, for `batch_size = k + 1`: each iteration gathers one
chunk of at most `k + 1` images, appending the chunk's results in order. -/
def batchLoop (cfg : PipelineConfig) (env : Env) (now : Nat)
    (faults : Nat → Option String) (model_type : Option ModelType)
    (use_fallback : Bool) (k : Nat) :
    List Image → Nat → FactoryState → Metrics →
      List ProcessingResult × FactoryState × Metrics
  | [], _, st, ms => ([], st, ms)
  | img :: rest, idx, st, ms =>
      let chunk := img :: rest.take k
      let r1 := processSeq cfg env now faults model_type use_fallback chunk idx st ms
      let r2 := batchLoop cfg env now faults model_type use_fallback k
        (rest.drop k) (idx + chunk.length) r1.2.1 r1.2.2
      (r1.1 ++ r2.1, r2.2.1, r2.2.2)
  termination_by images => images.length
  decreasing_by simp [List.length_drop]; omega

/-- `BackgroundRemovalPipeline.process_batch`: chunked processing followed
by aggregation.  `batch_size = 0` would make `range(0, len(images), 0)`
raise `ValueError` (modelled as `none`); pydantic validation guarantees
`batch_size ≥ 1`.  Wall-clock `total_time` is `0` in the model. -/
def process_batch (cfg : PipelineConfig) (env : Env) (now : Nat)
    (st : FactoryState) (ms : Metrics) (images : List Image)
    (model_type : Option ModelType) (use_fallback : Bool)
    (faults : Nat → Option String) :
    Option (BatchProcessingResult × FactoryState × Metrics) :=
  match cfg.batch_size with
  | 0 => none
  | k + 1 =>
      let r := batchLoop cfg env now faults model_type use_fallback k images 0 st ms
      let results := r.1
      let successful := (results.filter (fun x => x.success)).length
      let failed := results.length - successful
      let total_time : ℚ := 0
      let average_time : ℚ :=
        if results.length ≠ 0 then total_time / (results.length : ℚ) else 0
      some
        ({ total := images.length
           successful := successful
           failed := failed
           results := results
           total_time := total_time
           average_time := average_time }, r.2.1, r.2.2)

/-! ## Derived notions used by the verification -/

/-- Number of backend attempts (`remove_background` calls) in a retry
trace. -/
def attemptCount (evs : List Event) : Nat :=
  (evs.filter fun e =>
    match e with
    | Event.att _ => true
    | _ => false).length

/-- The canonical trace of `m` consecutive attempts starting at attempt
index `k`: a `sleep d` precedes every attempt except attempt `0`. -/
def canonicalFrom (d : ℚ) : Nat → Nat → List Event
  | _, 0 => []
  | k, Nat.succ m =>
      (if k = 0 then [Event.att 0] else [Event.sleep d, Event.att k])
        ++ canonicalFrom d (k + 1) m

/-- The canonical trace of `m` attempts: no sleep before the first attempt,
exactly one `sleep d` between consecutive attempts. -/
def canonicalTrace (d : ℚ) (m : Nat) : List Event := canonicalFrom d 0 m

/-- The environment in which every backend timeout is replaced by an
adapter error carrying the timeout message the pipeline would record. -/
def timeoutToErr (cfg : PipelineConfig) (env : Env) : Env :=
  { env with
      exec := fun t n i =>
        match env.exec t n i with
        | ExecResult.timeout => ExecResult.err (timeoutMsg cfg)
        | r => r }

/-- The `last_error` string an attempt outcome contributes (`none` for a
success). -/
def msgOf (cfg : PipelineConfig) : ExecResult → Option String
  | ExecResult.ok _ => none
  | ExecResult.err m => some m
  | ExecResult.timeout => some (timeoutMsg cfg)

/-- Specification-side description of the fallback walk, transcribed from
the spec's words for `GetFallbackModel`: walk the chain in configured
order; skip the excluded type and any entry that does not parse to a
backend type; return the first instance `GetModel` yields, threading the
state changes of failed `GetModel` calls; `nil` when the chain is
exhausted. -/
inductive FallbackSpec (cfg : PipelineConfig) (env : Env) (now : Nat)
    (exclude : Option ModelType) :
    List String → FactoryState → Option Instance × FactoryState → Prop where
  | exhausted (st : FactoryState) :
      FallbackSpec cfg env now exclude [] st (none, st)
  | skipInvalid (s : String) (rest : List String) (st : FactoryState)
      (out : Option Instance × FactoryState) :
      ModelType.ofString s = none →
      FallbackSpec cfg env now exclude rest st out →
      FallbackSpec cfg env now exclude (s :: rest) st out
  | skipExcluded (s : String) (rest : List String) (st : FactoryState)
      (out : Option Instance × FactoryState) (t : ModelType) :
      ModelType.ofString s = some t →
      exclude = some t →
      FallbackSpec cfg env now exclude rest st out →
      FallbackSpec cfg env now exclude (s :: rest) st out
  | hit (s : String) (rest : List String) (st : FactoryState) (t : ModelType)
      (m : Instance) (st' : FactoryState) :
      ModelType.ofString s = some t →
      exclude ≠ some t →
      get_model cfg env now st t = (some m, st') →
      FallbackSpec cfg env now exclude (s :: rest) st (some m, st')
  | miss (s : String) (rest : List String) (st : FactoryState) (t : ModelType)
      (st' : FactoryState) (out : Option Instance × FactoryState) :
      ModelType.ofString s = some t →
      exclude ≠ some t →
      get_model cfg env now st t = (none, st') →
      FallbackSpec cfg env now exclude rest st' out →
      FallbackSpec cfg env now exclude (s :: rest) st out

/-! ## Concrete scenarios

`cfgA` plays the spec's "default A with chain [A, B, Baseline]":
`A = rmbg-2.0-local`, `B = rmbg-2.0-api`, `Baseline = u2net` (the
configuration's default fallback chain). -/

/-- A 4×4 RGB input image. -/
def inImg : Image := ⟨"RGB", (4, 4)⟩

/-- The RGBA image produced by a successful backend call in the
scenarios. -/
def outImg : Image := ⟨"RGBA", (1, 1)⟩

/-- Configuration with default backend `rmbg-2.0-local` and the default
fallback chain `["rmbg-2.0-local", "rmbg-2.0-api", "u2net"]`. -/
def cfgA : PipelineConfig := { default_model := "rmbg-2.0-local" }

/-- All three backends construct; `rmbg-2.0-local` and `rmbg-2.0-api`
always fail at execution time; `u2net` succeeds. -/
def envExecFail : Env :=
  { constructOk := fun _ _ => true
    constructErr := fun _ _ => "unused"
    exec := fun t _ _ =>
      match t with
      | ModelType.rmbg2Local => ExecResult.err "boomA"
      | ModelType.rmbg2Api => ExecResult.err "boomB"
      | ModelType.u2net => ExecResult.ok outImg }

/-- `rmbg-2.0-local` and `rmbg-2.0-api` fail to construct; `u2net`
constructs and succeeds at execution. -/
def envConstructFail : Env :=
  { constructOk := fun _ t =>
      match t with
      | ModelType.u2net => true
      | _ => false
    constructErr := fun _ _ => "no credentials"
    exec := fun t _ _ =>
      match t with
      | ModelType.u2net => ExecResult.ok outImg
      | _ => ExecResult.err "x" }

/-- All three backends construct but every execution attempt fails, each
type with its own error message. -/
def envAllExecFail : Env :=
  { constructOk := fun _ _ => true
    constructErr := fun _ _ => "unused"
    exec := fun t _ _ =>
      match t with
      | ModelType.rmbg2Local => ExecResult.err "boomA"
      | ModelType.rmbg2Api => ExecResult.err "boomB"
      | ModelType.u2net => ExecResult.err "boomC" }

/-- No backend can be constructed at all. -/
def envNoConstruct : Env :=
  { constructOk := fun _ _ => false
    constructErr := fun _ t => s!"cannot load {t.value}"
    exec := fun _ _ _ => ExecResult.err "unreachable" }

/-- A configuration with fallback disabled. -/
def cfgDisabled : PipelineConfig := { fallback_enabled := false }

/-- A cached `u2net` instance for the health-check scenarios. -/
def instU : Instance := ⟨0, ModelType.u2net⟩

/-- A health record for `u2net` taken at time 0. -/
def recU : ModelHealth :=
  ⟨ModelType.u2net, ModelHealthStatus.healthy, "Model initialized successfully", 0⟩

/-- Factory state holding the cached `u2net` instance and its time-0 health
record. -/
def stH : FactoryState :=
  { instances := setKey (fun _ => none) ModelType.u2net (some instU)
    health := setKey (fun _ => none) ModelType.u2net (some recU)
    nextId := 1 }

/-- Raw configuration with an unknown backend name and all numeric options
in range. -/
def rawMagic : RawConfig := { default_model := "magic" }

/-- Configuration with `batch_size = 2` for the batch scenarios. -/
def cfgB2 : PipelineConfig := { batch_size := 2 }

/-- Fault oracle: the task of batch item 1 raises an unexpected internal
exception. -/
def faultsW : Nat → Option String :=
  fun i => if i = 1 then some "internal fault" else none

/-- The shared factory state after a first `get_model` for `rmbg-2.0-api`
made through a factory holding `cfgA`. -/
def stAfterApi : FactoryState :=
  (get_model cfgA envExecFail 0 FactoryState.initial ModelType.rmbg2Api).2

/-! ## Helper lemmas -/

lemma healthProbe_none (now : Nat) (st : FactoryState) (t : ModelType)
    (hinst : st.instances t = none) :
    healthProbe now st t =
      (⟨t, ModelHealthStatus.unknown, "Model not initialized", now⟩, st) := by
  unfold healthProbe
  rw [hinst]

lemma healthProbe_some (now : Nat) (st : FactoryState) (t : ModelType)
    (m : Instance) (hinst : st.instances t = some m) :
    healthProbe now st t =
      (freshHealthy now t,
        { st with health := setKey st.health t (some (freshHealthy now t)) }) := by
  unfold healthProbe
  rw [hinst]
  simp [Instance.hasRemoveBackground, freshHealthy]

lemma check_health_none (now : Nat) (st : FactoryState) (t : ModelType)
    (hrec : st.health t = none) :
    check_health now st t = healthProbe now st t := by
  unfold check_health
  rw [hrec]

lemma check_health_fresh (now : Nat) (st : FactoryState) (t : ModelType)
    (h : ModelHealth) (hrec : st.health t = some h)
    (httl : now - h.last_check < healthTTL) :
    check_health now st t = (h, st) := by
  unfold check_health
  rw [hrec]
  exact if_pos httl

lemma check_health_stale (now : Nat) (st : FactoryState) (t : ModelType)
    (h : ModelHealth) (hrec : st.health t = some h)
    (httl : ¬ now - h.last_check < healthTTL) :
    check_health now st t = healthProbe now st t := by
  unfold check_health
  rw [hrec]
  exact if_neg httl

lemma get_model_cached (cfg : PipelineConfig) (env : Env) (now : Nat)
    (st : FactoryState) (t : ModelType) (m : Instance)
    (hinst : st.instances t = some m) :
    get_model cfg env now st t =
      (if (check_health now st t).1.is_healthy then
        (some m, (check_health now st t).2)
      else
        createModel cfg env now
          { (check_health now st t).2 with
              instances := setKey (check_health now st t).2.instances t none } t) := by
  unfold get_model
  rw [hinst]

lemma get_model_uncached (cfg : PipelineConfig) (env : Env) (now : Nat)
    (st : FactoryState) (t : ModelType) (hinst : st.instances t = none) :
    get_model cfg env now st t = createModel cfg env now st t := by
  unfold get_model
  rw [hinst]

lemma createModel_some (cfg : PipelineConfig) (env : Env) (now : Nat)
    (st : FactoryState) (t : ModelType) (m : Instance) (st' : FactoryState)
    (hc : createModel cfg env now st t = (some m, st')) :
    st'.instances t = some m ∧
      st'.health t =
        some ⟨t, ModelHealthStatus.healthy, "Model initialized successfully", now⟩ := by
  unfold createModel at hc
  by_cases hco : env.constructOk cfg t
  · rw [if_pos hco] at hc
    simp only [Prod.mk.injEq] at hc
    obtain ⟨hm, hst⟩ := hc
    subst hst
    exact ⟨by simp [setKey, hm], by simp [setKey]⟩
  · rw [if_neg hco] at hc
    simp at hc

lemma check_health_instances (now : Nat) (st : FactoryState) (t : ModelType) :
    (check_health now st t).2.instances = st.instances := by
  rcases hrec : st.health t with _ | h
  · rw [check_health_none now st t hrec]
    rcases hinst : st.instances t with _ | m
    · rw [healthProbe_none now st t hinst]
    · rw [healthProbe_some now st t m hinst]
  · by_cases httl : now - h.last_check < healthTTL
    · rw [check_health_fresh now st t h hrec httl]
    · rw [check_health_stale now st t h hrec httl]
      rcases hinst : st.instances t with _ | m
      · rw [healthProbe_none now st t hinst]
      · rw [healthProbe_some now st t m hinst]

lemma check_health_healthy_record (now : Nat) (st : FactoryState) (t : ModelType)
    (m : Instance) (hinst : st.instances t = some m)
    (hok : (check_health now st t).1.is_healthy = true) :
    ∃ h, (check_health now st t).2.health t = some h ∧ h.is_healthy = true := by
  rcases hrec : st.health t with _ | h
  · rw [check_health_none now st t hrec, healthProbe_some now st t m hinst]
    exact ⟨freshHealthy now t, by simp [setKey], rfl⟩
  · by_cases httl : now - h.last_check < healthTTL
    · rw [check_health_fresh now st t h hrec httl] at hok ⊢
      exact ⟨h, hrec, hok⟩
    · rw [check_health_stale now st t h hrec httl, healthProbe_some now st t m hinst]
      exact ⟨freshHealthy now t, by simp [setKey], rfl⟩

lemma get_model_some_cached (cfg : PipelineConfig) (env : Env) (now : Nat)
    (st : FactoryState) (t : ModelType) (m : Instance) (st' : FactoryState)
    (hgm : get_model cfg env now st t = (some m, st')) :
    st'.instances t = some m ∧
      ∃ h, st'.health t = some h ∧ h.is_healthy = true := by
  rcases hinst : st.instances t with _ | inst
  · rw [get_model_uncached cfg env now st t hinst] at hgm
    obtain ⟨h1, h2⟩ := createModel_some cfg env now st t m st' hgm
    exact ⟨h1, _, h2, rfl⟩
  · rw [get_model_cached cfg env now st t inst hinst] at hgm
    by_cases hok : (check_health now st t).1.is_healthy
    · rw [if_pos hok] at hgm
      simp only [Prod.mk.injEq] at hgm
      obtain ⟨hm, hst⟩ := hgm
      subst hst
      constructor
      · rw [check_health_instances, hinst, hm]
      · exact check_health_healthy_record now st t inst hinst hok
    · rw [if_neg hok] at hgm
      obtain ⟨h1, h2⟩ := createModel_some cfg env now _ t m st' hgm
      exact ⟨h1, _, h2, rfl⟩

lemma get_model_of_cached_healthy (cfg : PipelineConfig) (env : Env)
    (now : Nat) (st : FactoryState) (t : ModelType) (m : Instance)
    (h : ModelHealth) (hinst : st.instances t = some m)
    (hrec : st.health t = some h) (hok : h.is_healthy = true) :
    (get_model cfg env now st t).1 = some m := by
  rw [get_model_cached cfg env now st t m hinst]
  by_cases httl : now - h.last_check < healthTTL
  · rw [check_health_fresh now st t h hrec httl]
    simp [hok]
  · rw [check_health_stale now st t h hrec httl, healthProbe_some now st t m hinst]
    simp [freshHealthy, ModelHealth.is_healthy]

theorem C8_success_rate_zero_guards :
    (∀ b : BatchProcessingResult, b.total = 0 → b.success_rate = 0) ∧
    (∀ m : Metrics, m.total_processed = 0 →
      (get_metrics m).success_rate = 0 ∧ (get_metrics m).average_time = 0) ∧
    (∀ cfg env now st ms mt uf faults, 1 ≤ cfg.batch_size →
      ∃ r, process_batch cfg env now st ms [] mt uf faults = some r ∧
        r.1.total = 0 ∧ r.1.success_rate = 0) := by
  refine ⟨?_, ?_, ?_⟩
  · intro b hb
    unfold BatchProcessingResult.success_rate
    rw [if_neg (by omega)]
  · intro m hm
    unfold get_metrics
    constructor <;> · simp only; rw [if_neg (by omega)]
  · intro cfg env now st ms mt uf faults hbs
    obtain ⟨k, hk⟩ : ∃ k, cfg.batch_size = k + 1 :=
      ⟨cfg.batch_size - 1, by omega⟩
    unfold process_batch
    rw [hk]
    exact ⟨_, rfl, rfl, by unfold BatchProcessingResult.success_rate; simp⟩

theorem C6_health_ttl :
    ∀ now st t h, st.health t = some h →
      (now - h.last_check < healthTTL → check_health now st t = (h, st)) ∧
      (healthTTL ≤ now - h.last_check →
        (st.instances t = none →
          check_health now st t =
            (⟨t, ModelHealthStatus.unknown, "Model not initialized", now⟩, st)) ∧
        (∀ m, st.instances t = some m →
          check_health now st t =
            (freshHealthy now t,
              { st with
                  health := setKey st.health t (some (freshHealthy now t)) }))) := by
  intro now st t h hrec
  constructor
  · intro httl
    exact check_health_fresh now st t h hrec httl
  · intro httl
    constructor
    · intro hnone
      rw [check_health_stale now st t h hrec (by omega)]
      exact healthProbe_none now st t hnone
    · intro m hinst
      rw [check_health_stale now st t h hrec (by omega)]
      exact healthProbe_some now st t m hinst

theorem C9_get_model_idempotent :
    ∀ cfg env t1 t2 st mt m st',
      get_model cfg env t1 st mt = (some m, st') →
      (get_model cfg env t2 st' mt).1 = some m := by
  intro cfg env t1 t2 st mt m st' h1
  obtain ⟨hinst, h, hrec, hok⟩ := get_model_some_cached cfg env t1 st mt m st' h1
  exact get_model_of_cached_healthy cfg env t2 st' mt m h hinst hrec hok

theorem C10_shared_class_level_cache :
    ∀ c1 c2 env t1 t2 st mt m st',
      get_model c1 env t1 st mt = (some m, st') →
      (get_model c2 env t2 st' mt).1 = some m ∧
      ((clear_cache st' (some mt)).instances mt = none ∧
        (clear_cache st' (some mt)).health mt = none) ∧
      (∀ t', (clear_cache st' none).instances t' = none ∧
        (clear_cache st' none).health t' = none) := by
  intro c1 c2 env t1 t2 st mt m st' h1
  obtain ⟨hinst, h, hrec, hok⟩ := get_model_some_cached c1 env t1 st mt m st' h1
  refine ⟨get_model_of_cached_healthy c2 env t2 st' mt m h hinst hrec hok, ?_, ?_⟩
  · exact ⟨by simp [clear_cache, setKey], by simp [clear_cache, setKey]⟩
  · intro t'
    exact ⟨rfl, rfl⟩

lemma fallbackWalk_spec (cfg : PipelineConfig) (env : Env) (now : Nat)
    (exclude : Option ModelType) :
    ∀ (chain : List String) (st : FactoryState),
      FallbackSpec cfg env now exclude chain st
        (fallbackWalk cfg env now exclude chain st) := by
  intro chain
  induction chain with
  | nil => intro st; exact FallbackSpec.exhausted st
  | cons s rest ih =>
      intro st
      unfold fallbackWalk
      rcases hofs : ModelType.ofString s with _ | t
      · exact FallbackSpec.skipInvalid s rest st _ hofs (ih st)
      · simp only
        by_cases hex : exclude = some t
        · rw [if_pos hex]
          exact FallbackSpec.skipExcluded s rest st _ t hofs hex (ih st)
        · rw [if_neg hex]
          rcases hr : (get_model cfg env now st t).1 with _ | m
          · simp only
            exact FallbackSpec.miss s rest st t _ _ hofs hex
              (by rw [← hr]) (ih _)
          · simp only
            exact FallbackSpec.hit s rest st t m _ hofs hex (by rw [← hr])

theorem C7_get_fallback_model_walk :
    ∀ cfg env now st exclude,
      (cfg.fallback_enabled = false →
        get_fallback_model cfg env now st exclude = (none, st)) ∧
      (cfg.fallback_enabled = true →
        FallbackSpec cfg env now exclude cfg.fallback_chain st
          (get_fallback_model cfg env now st exclude)) := by
  intro cfg env now st exclude
  constructor
  · intro hdis
    unfold get_fallback_model
    rw [hdis]
    rfl
  · intro hen
    unfold get_fallback_model
    rw [hen]
    simp only [if_true]
    exact fallbackWalk_spec cfg env now exclude cfg.fallback_chain st

lemma attemptCount_nil : attemptCount [] = 0 := rfl

lemma attemptCount_append (a b : List Event) :
    attemptCount (a ++ b) = attemptCount a + attemptCount b := by
  simp [attemptCount]

lemma attemptCount_cons_att (n : Nat) (l : List Event) :
    attemptCount (Event.att n :: l) = attemptCount l + 1 := by
  simp [attemptCount, List.filter_cons]

lemma attemptCount_sleepPrefix (cfg : PipelineConfig) (k : Nat) :
    attemptCount (sleepPrefix cfg k) = 0 := by
  unfold sleepPrefix
  split <;> rfl

lemma attemptCount_att_single (k : Nat) : attemptCount [Event.att k] = 1 := rfl

lemma canonicalFrom_succ (d : ℚ) (k m : Nat) :
    canonicalFrom d k (m + 1) =
      (if k = 0 then [Event.att 0] else [Event.sleep d, Event.att k])
        ++ canonicalFrom d (k + 1) m := rfl

lemma retryAux_bound (cfg : PipelineConfig) (env : Env) (t : ModelType)
    (img : Image) :
    ∀ rem k last, attemptCount (retryAux cfg env t img k rem last).2 ≤ rem := by
  intro rem
  induction rem with
  | zero => intro k last; exact Nat.le_refl 0
  | succ rem ih =>
      intro k last
      unfold retryAux
      rcases henv : env.exec t k img with out | m | _
      · simp only
        rw [attemptCount_append, attemptCount_sleepPrefix, attemptCount_att_single]
        omega
      · simp only
        rw [attemptCount_append, attemptCount_sleepPrefix, attemptCount_cons_att]
        have := ih (k + 1) (some m)
        omega
      · simp only
        rw [attemptCount_append, attemptCount_sleepPrefix, attemptCount_cons_att]
        have := ih (k + 1) (some (timeoutMsg cfg))
        omega

lemma retryAux_trace (cfg : PipelineConfig) (env : Env) (t : ModelType)
    (img : Image) :
    ∀ rem k last,
      (retryAux cfg env t img k rem last).2 =
        canonicalFrom cfg.retry_delay k
          (attemptCount (retryAux cfg env t img k rem last).2) := by
  intro rem
  induction rem with
  | zero => intro k last; rfl
  | succ rem ih =>
      intro k last
      unfold retryAux
      rcases henv : env.exec t k img with out | m | _
      · simp only
        have hc : attemptCount (sleepPrefix cfg k ++ [Event.att k]) = 1 := by
          rw [attemptCount_append, attemptCount_sleepPrefix, attemptCount_att_single]
        rw [hc, canonicalFrom_succ]
        unfold sleepPrefix
        by_cases hk : k = 0
        · subst hk; simp [canonicalFrom]
        · rw [if_neg hk, if_neg hk]; simp [canonicalFrom]
      · simp only
        have hc : attemptCount
            (sleepPrefix cfg k ++ Event.att k ::
              (retryAux cfg env t img (k + 1) rem (some m)).2) =
            attemptCount (retryAux cfg env t img (k + 1) rem (some m)).2 + 1 := by
          rw [attemptCount_append, attemptCount_sleepPrefix, attemptCount_cons_att]
          omega
        rw [hc, canonicalFrom_succ, ← ih (k + 1) (some m)]
        unfold sleepPrefix
        by_cases hk : k = 0
        · subst hk; simp
        · rw [if_neg hk, if_neg hk]; simp
      · simp only
        have hc : attemptCount
            (sleepPrefix cfg k ++ Event.att k ::
              (retryAux cfg env t img (k + 1) rem (some (timeoutMsg cfg))).2) =
            attemptCount
              (retryAux cfg env t img (k + 1) rem (some (timeoutMsg cfg))).2 + 1 := by
          rw [attemptCount_append, attemptCount_sleepPrefix, attemptCount_cons_att]
          omega
        rw [hc, canonicalFrom_succ, ← ih (k + 1) (some (timeoutMsg cfg))]
        unfold sleepPrefix
        by_cases hk : k = 0
        · subst hk; simp
        · rw [if_neg hk, if_neg hk]; simp

lemma retryAux_perm_fail (cfg : PipelineConfig) (env : Env) (t : ModelType)
    (img : Image) (hf : ∀ n out, env.exec t n img ≠ ExecResult.ok out) :
    ∀ rem k last, attemptCount (retryAux cfg env t img k rem last).2 = rem := by
  intro rem
  induction rem with
  | zero => intro k last; rfl
  | succ rem ih =>
      intro k last
      unfold retryAux
      rcases henv : env.exec t k img with out | m | _
      · exact absurd henv (hf k out)
      · simp only
        rw [attemptCount_append, attemptCount_sleepPrefix, attemptCount_cons_att,
          ih (k + 1) (some m)]
        omega
      · simp only
        rw [attemptCount_append, attemptCount_sleepPrefix, attemptCount_cons_att,
          ih (k + 1) (some (timeoutMsg cfg))]
        omega

lemma retryAux_timeout_as_err (cfg : PipelineConfig) (env : Env)
    (t : ModelType) (img : Image) :
    ∀ rem k last,
      retryAux cfg (timeoutToErr cfg env) t img k rem last =
        retryAux cfg env t img k rem last := by
  intro rem
  induction rem with
  | zero => intro k last; rfl
  | succ rem ih =>
      intro k last
      unfold retryAux
      have hexec : (timeoutToErr cfg env).exec t k img =
          match env.exec t k img with
          | ExecResult.timeout => ExecResult.err (timeoutMsg cfg)
          | r => r := rfl
      rcases henv : env.exec t k img with out | m | _ <;>
        rw [hexec, henv] <;> simp only <;> rw [ih]

/-- C3: the retry loop makes at most `max_retries + 1` attempts against the
current backend; the trace is canonical (no sleep before the first attempt,
exactly one `retry_delay` sleep between consecutive attempts); a timeout is
handled identically to an adapter error carrying the timeout message; and a
permanently failing backend is attempted exactly `max_retries + 1` times —
with `max_retries = 2`, exactly 3 times. -/
theorem C3_retry_attempt_loop :
    ∀ cfg env t img,
      attemptCount (process_with_retry cfg env t img).2 ≤ cfg.max_retries + 1 ∧
      (process_with_retry cfg env t img).2 =
        canonicalTrace cfg.retry_delay
          (attemptCount (process_with_retry cfg env t img).2) ∧
      process_with_retry cfg (timeoutToErr cfg env) t img =
        process_with_retry cfg env t img ∧
      ((∀ n out, env.exec t n img ≠ ExecResult.ok out) →
        attemptCount (process_with_retry cfg env t img).2 = cfg.max_retries + 1) := by
  intro cfg env t img
  exact ⟨retryAux_bound cfg env t img (cfg.max_retries + 1) 0 none,
    retryAux_trace cfg env t img (cfg.max_retries + 1) 0 none,
    retryAux_timeout_as_err cfg env t img (cfg.max_retries + 1) 0 none,
    fun hf => retryAux_perm_fail cfg env t img hf (cfg.max_retries + 1) 0 none⟩

/-- Witness for C3: with `max_retries = 2` and a backend whose every
execution attempt fails, exactly `2 + 1 = 3` attempts are made. -/
theorem C3_witness :
    attemptCount
        (process_with_retry cfgA envAllExecFail ModelType.rmbg2Local inImg).2 =
      cfgA.max_retries + 1 ∧ cfgA.max_retries + 1 = 3 :=
  ⟨(C3_retry_attempt_loop cfgA envAllExecFail ModelType.rmbg2Local inImg).2.2.2
      (fun n out h => by simp [envAllExecFail] at h),
    rfl⟩

lemma processSeq_append (cfg : PipelineConfig) (env : Env) (now : Nat)
    (faults : Nat → Option String) (mt : Option ModelType) (uf : Bool) :
    ∀ (xs ys : List Image) (idx : Nat) (st : FactoryState) (ms : Metrics),
      processSeq cfg env now faults mt uf (xs ++ ys) idx st ms =
        ((processSeq cfg env now faults mt uf xs idx st ms).1 ++
            (processSeq cfg env now faults mt uf ys (idx + xs.length)
              (processSeq cfg env now faults mt uf xs idx st ms).2.1
              (processSeq cfg env now faults mt uf xs idx st ms).2.2).1,
          (processSeq cfg env now faults mt uf ys (idx + xs.length)
            (processSeq cfg env now faults mt uf xs idx st ms).2.1
            (processSeq cfg env now faults mt uf xs idx st ms).2.2).2) := by
  intro xs
  induction xs with
  | nil =>
      intro ys idx st ms
      simp [processSeq]
  | cons x xs ih =>
      intro ys idx st ms
      simp only [List.cons_append, processSeq]
      simp only [List.append_eq]
      rw [ih]
      simp only [List.length_cons]
      have harith : idx + (xs.length + 1) = idx + 1 + xs.length := by omega
      rw [harith]

lemma processSeq_length (cfg : PipelineConfig) (env : Env) (now : Nat)
    (faults : Nat → Option String) (mt : Option ModelType) (uf : Bool) :
    ∀ (images : List Image) (idx : Nat) (st : FactoryState) (ms : Metrics),
      (processSeq cfg env now faults mt uf images idx st ms).1.length =
        images.length := by
  intro images
  induction images with
  | nil => intro idx st ms; rfl
  | cons img rest ih =>
      intro idx st ms
      simp only [processSeq, List.length_cons, ih]

lemma batchLoop_eq_seq (cfg : PipelineConfig) (env : Env) (now : Nat)
    (faults : Nat → Option String) (mt : Option ModelType) (uf : Bool)
    (k : Nat) :
    ∀ (n : Nat) (images : List Image), images.length ≤ n →
      ∀ (idx : Nat) (st : FactoryState) (ms : Metrics),
        batchLoop cfg env now faults mt uf k images idx st ms =
          processSeq cfg env now faults mt uf images idx st ms := by
  intro n
  induction n with
  | zero =>
      intro images hlen idx st ms
      have : images = [] := List.length_eq_zero.mp (Nat.le_zero.mp hlen)
      subst this
      rw [batchLoop]
      rfl
  | succ n ih =>
      intro images hlen idx st ms
      cases images with
      | nil =>
          rw [batchLoop]
          rfl
      | cons img rest =>
          rw [batchLoop]
          have hsplit : img :: rest = (img :: rest.take k) ++ rest.drop k := by
            simp
          conv_rhs => rw [hsplit]
          rw [processSeq_append]
          rw [ih (rest.drop k)
            (by
              have h1 : rest.length ≤ n := by
                simpa using Nat.succ_le_succ_iff.mp hlen
              have h2 : (rest.drop k).length ≤ rest.length := by
                simp [List.length_drop]
              omega)]

lemma processSeq_fault_slot (cfg : PipelineConfig) (env : Env) (now : Nat)
    (faults : Nat → Option String) (mt : Option ModelType) (uf : Bool) :
    ∀ (images : List Image) (idx i : Nat) (st : FactoryState) (ms : Metrics)
      (e : String),
      i < images.length → faults (idx + i) = some e →
      (processSeq cfg env now faults mt uf images idx st ms).1.get? i =
        some { status := ProcessingStatus.failed, error := some e } := by
  intro images
  induction images with
  | nil => intro idx i st ms e hi _; simp at hi
  | cons img rest ih =>
      intro idx i st ms e hi hf
      cases i with
      | zero =>
          rw [Nat.add_zero] at hf
          simp only [processSeq, List.get?_cons_zero]
          simp [processItem, hf]
      | succ i =>
          simp only [processSeq, List.get?_cons_succ]
          apply ih
          · simpa using Nat.succ_lt_succ_iff.mp hi
          · rw [← hf]
            congr 1
            omega

/-- C4: for `batch_size ≥ 1`, `process_batch` on `N` images always returns
a result (no exception escapes); its outcome list equals the in-order
per-item processing of the inputs (chunking is transparent), has exactly
`N` entries, `total = N`, `successful + failed = N`, and an item whose task
raised an unexpected internal fault appears as a `FAILED` outcome in its
own slot. -/
theorem C4_process_batch_shape :
    ∀ cfg env now st ms images mt uf faults k,
      cfg.batch_size = k + 1 →
      ∃ r, process_batch cfg env now st ms images mt uf faults = some r ∧
        r.1.results = (processSeq cfg env now faults mt uf images 0 st ms).1 ∧
        r.1.results.length = images.length ∧
        r.1.total = images.length ∧
        r.1.successful + r.1.failed = images.length ∧
        (∀ i e, i < images.length → faults i = some e →
          r.1.results.get? i =
            some { status := ProcessingStatus.failed, error := some e }) := by
  intro cfg env now st ms images mt uf faults k hk
  have hseq := batchLoop_eq_seq cfg env now faults mt uf k images.length images
    (Nat.le_refl _) 0 st ms
  have hlen := processSeq_length cfg env now faults mt uf images 0 st ms
  unfold process_batch
  rw [hk]
  refine ⟨_, rfl, ?_, ?_, ?_, ?_, ?_⟩
  · simp only [hseq]
  · simp only [hseq, hlen]
  · rfl
  · simp only [hseq]
    have hfil : ((processSeq cfg env now faults mt uf images 0 st ms).1.filter
        (fun x => x.success)).length ≤
        (processSeq cfg env now faults mt uf images 0 st ms).1.length :=
      List.length_filter_le _ _
    omega
  · intro i e hi hf
    simp only [hseq]
    exact processSeq_fault_slot cfg env now faults mt uf images 0 i st ms e hi
      (by simpa using hf)

/-- Counterexample to C1 as stated: with chain `[A, B, Baseline]`
(`cfgA`, default `rmbg-2.0-local`), A and B always failing at execution
time and `u2net` succeeding, `process` returns `FAILED` — not `SUCCESS`
with `model_used = u2net` — because exhaustion of the attempt loop never
consults the fallback chain. -/
theorem C1_counterexample :
    (process cfgA envExecFail 0 FactoryState.initial Metrics.initial inImg
        none true).1.status = ProcessingStatus.failed ∧
    (process cfgA envExecFail 0 FactoryState.initial Metrics.initial inImg
        none true).1.model_used ≠ some ModelType.u2net := by
  exact ⟨rfl, by decide⟩

/-- C1 (amended): `process` consults the fallback chain only when model
acquisition fails (`get_model` returns `None`); when a model was acquired,
exhaustion of its attempt loop yields a `FAILED` outcome with the loop's
error and no fallback is attempted.  With A and B failing at construction
and the baseline succeeding, `process` on default A returns `SUCCESS` with
`model_used = u2net`. -/
theorem C1_fallback_only_on_acquisition :
    (∀ cfg env now st ms img t uf m e,
      (get_model cfg env now st t).1 = some m →
      (process_with_retry cfg env m.mtype
          (if cfg.enable_preprocessing then preprocess_image img else img)).1 =
        Except.error e →
      (process cfg env now st ms img (some t) uf).1 =
        { status := ProcessingStatus.failed, error := some e,
          processing_time := some 0 }) ∧
    (process cfgA envConstructFail 0 FactoryState.initial Metrics.initial inImg
        none true).1.status = ProcessingStatus.success ∧
    (process cfgA envConstructFail 0 FactoryState.initial Metrics.initial inImg
        none true).1.model_used = some ModelType.u2net := by
  refine ⟨?_, rfl, rfl⟩
  intro cfg env now st ms img t uf m e hgm hretry
  unfold process processCore afterResolve
  simp only [hgm, hretry]

lemma retryAux_all_fail_msg (cfg : PipelineConfig) (env : Env) (t : ModelType)
    (img : Image) (hf : ∀ n out, env.exec t n img ≠ ExecResult.ok out) :
    ∀ rem k last, 1 ≤ rem →
      (retryAux cfg env t img k rem last).1 =
        Except.error (exhaustMsg (msgOf cfg (env.exec t (k + rem - 1) img))) := by
  intro rem
  induction rem with
  | zero => intro k last h; omega
  | succ rem ih =>
      intro k last _
      unfold retryAux
      rcases henv : env.exec t k img with out | m | _
      · exact absurd henv (hf k out)
      · simp only
        by_cases hrem : rem = 0
        · subst hrem
          simp [retryAux, exhaustMsg, msgOf, henv]
        · rw [ih (k + 1) (some m) (by omega)]
          have : k + 1 + rem - 1 = k + (rem + 1) - 1 := by omega
          rw [this]
      · simp only
        by_cases hrem : rem = 0
        · subst hrem
          simp [retryAux, exhaustMsg, msgOf, henv]
        · rw [ih (k + 1) (some (timeoutMsg cfg)) (by omega)]
          have : k + 1 + rem - 1 = k + (rem + 1) - 1 := by omega
          rw [this]

/-- Counterexample to C2 as stated: with all three backends failing at
execution time, the `FAILED` outcome's error message carries only the
primary backend's last error; the other backends' error messages do not
occur in it, so the message does not reference every backend. -/
theorem C2_counterexample :
    (process cfgA envAllExecFail 0 FactoryState.initial Metrics.initial inImg
        none true).1.error =
      some "All retries failed. Last error: boomA" ∧
    ¬ ("boomB".toList <:+:
        "All retries failed. Last error: boomA".toList) ∧
    ¬ ("boomC".toList <:+:
        "All retries failed. Last error: boomA".toList) := by
  exact ⟨rfl, by decide, by decide⟩

/-- C2 (amended): when every attempt against the selected backend fails,
`process_with_retry` raises `All retries failed. Last error: <e>` where
`<e>` is the message of that backend's final attempt alone — no
per-backend concatenation; and when no backend can be acquired at all the
outcome's error is `No available models`. -/
theorem C2_error_message_single_backend :
    (∀ cfg env t img,
      (∀ n out, env.exec t n img ≠ ExecResult.ok out) →
      (process_with_retry cfg env t img).1 =
        Except.error (exhaustMsg (msgOf cfg (env.exec t cfg.max_retries img)))) ∧
    (process cfgA envNoConstruct 0 FactoryState.initial Metrics.initial inImg
        none true).1.error = some "No available models" := by
  refine ⟨?_, rfl⟩
  intro cfg env t img hf
  unfold process_with_retry
  rw [retryAux_all_fail_msg cfg env t img hf (cfg.max_retries + 1) 0 none
    (by omega)]
  have : 0 + (cfg.max_retries + 1) - 1 = cfg.max_retries := by omega
  rw [this]



lemma validate_isOk_iff (r : RawConfig) :
    (PipelineConfig.validate r).isOk = true ↔
      (¬ (r.batch_size < 1 ∨ 100 < r.batch_size) ∧
        ¬ (r.timeout < 1 ∨ 300 < r.timeout) ∧
        ¬ (r.max_retries < 0 ∨ 5 < r.max_retries) ∧
        ¬ (r.retry_delay < 1/10 ∨ 10 < r.retry_delay)) := by
  unfold PipelineConfig.validate
  split_ifs with h1 h2 h3 h4
  · exact iff_of_false (by simp [Except.isOk, Except.toBool]) (fun hc => hc.1 h1)
  · exact iff_of_false (by simp [Except.isOk, Except.toBool]) (fun hc => hc.2.1 h2)
  · exact iff_of_false (by simp [Except.isOk, Except.toBool]) (fun hc => hc.2.2.1 h3)
  · exact iff_of_false (by simp [Except.isOk, Except.toBool]) (fun hc => hc.2.2.2 h4)
  · exact iff_of_true (by simp [Except.isOk, Except.toBool]) ⟨h1, h2, h3, h4⟩

lemma validate_keeps_default_model (r : RawConfig)
    (hok : (PipelineConfig.validate r).isOk = true) :
    (PipelineConfig.validate r).toOption.map (fun c => c.default_model) =
      some r.default_model := by
  unfold PipelineConfig.validate at hok ⊢
  split_ifs at hok ⊢ with h1 h2 h3 h4
  all_goals simp_all [Except.isOk, Except.toBool, Except.toOption]

lemma process_unknown_default (cfg : PipelineConfig)
    (h : ModelType.ofString cfg.default_model = none) (env : Env) (now : Nat)
    (st : FactoryState) (ms : Metrics) (img : Image) (uf : Bool) :
    get_default_model cfg env now st = (none, st) ∧
    (process cfg env now st ms img none uf).1 =
      { status := ProcessingStatus.failed,
        error := some (invalidModelTypeMsg cfg.default_model),
        processing_time := some 0 } := by
  constructor
  · unfold get_default_model
    rw [h]
  · unfold process processCore get_default_model
    simp only [h]

/-- Counterexample to C5 as stated: a configuration whose
`default_model` is the unknown backend name `"magic"` passes pydantic
construction (`validate` accepts it, keeping the name), and the error
surfaces only at request time as a `FAILED` outcome. -/
theorem C5_counterexample :
    (PipelineConfig.validate rawMagic).isOk = true ∧
    (PipelineConfig.validate rawMagic).toOption.map
        (fun c => c.default_model) = some "magic" ∧
    (process { default_model := "magic" } envExecFail 0 FactoryState.initial
        Metrics.initial inImg none true).1.status = ProcessingStatus.failed ∧
    (process { default_model := "magic" } envExecFail 0 FactoryState.initial
        Metrics.initial inImg none true).1.error =
      some "magic is not a valid ModelType" := by
  have hok : (PipelineConfig.validate rawMagic).isOk = true :=
    (validate_isOk_iff rawMagic).mpr
      (by refine ⟨?_, ?_, ?_, ?_⟩ <;> · show ¬ _; norm_num [rawMagic])
  exact ⟨hok, validate_keeps_default_model rawMagic hok, rfl, rfl⟩

/-- C5 (amended): construction-time validation accepts a raw
configuration exactly when the four bounded numeric options are in range —
an out-of-range option is rejected at construction — while an unknown
backend name passes construction and surfaces only at request time:
`get_default_model` returns `None` without touching state and `process`
returns a `FAILED` outcome carrying the `ValueError` message. -/
theorem C5_validation_surface :
    (∀ r : RawConfig,
      (PipelineConfig.validate r).isOk = true ↔
        (¬ (r.batch_size < 1 ∨ 100 < r.batch_size) ∧
          ¬ (r.timeout < 1 ∨ 300 < r.timeout) ∧
          ¬ (r.max_retries < 0 ∨ 5 < r.max_retries) ∧
          ¬ (r.retry_delay < 1/10 ∨ 10 < r.retry_delay))) ∧
    (∀ cfg : PipelineConfig, ModelType.ofString cfg.default_model = none →
      ∀ env now st ms img uf,
        get_default_model cfg env now st = (none, st) ∧
        (process cfg env now st ms img none uf).1 =
          { status := ProcessingStatus.failed,
            error := some (invalidModelTypeMsg cfg.default_model),
            processing_time := some 0 }) :=
  ⟨validate_isOk_iff, process_unknown_default⟩

/-- Witness for C1 (amended): concrete run in which the acquired primary
exhausts its attempts and `process` fails with the loop's error. -/
theorem C1_witness :
    (process cfgA envExecFail 0 FactoryState.initial Metrics.initial inImg
        (some ModelType.rmbg2Local) true).1 =
      { status := ProcessingStatus.failed,
        error := some "All retries failed. Last error: boomA",
        processing_time := some 0 } :=
  C1_fallback_only_on_acquisition.1 cfgA envExecFail 0 FactoryState.initial
    Metrics.initial inImg ModelType.rmbg2Local true ⟨0, ModelType.rmbg2Local⟩
    "All retries failed. Last error: boomA" rfl rfl

/-- Witness for C2 (amended): concrete permanently failing backend whose
exhaustion message carries the final attempt's error. -/
theorem C2_witness :
    (process_with_retry cfgA envAllExecFail ModelType.rmbg2Local inImg).1 =
      Except.error (exhaustMsg (msgOf cfgA
        (envAllExecFail.exec ModelType.rmbg2Local cfgA.max_retries inImg))) :=
  C2_error_message_single_backend.1 cfgA envAllExecFail ModelType.rmbg2Local
    inImg (fun n out h => by simp [envAllExecFail] at h)

/-- Witness for C4: a 3-image batch with `batch_size = 2` and an internal
fault injected at item 1 yields 3 outcomes with slot 1 `FAILED`. -/
theorem C4_witness :
    ∃ r, process_batch cfgB2 envExecFail 0 FactoryState.initial Metrics.initial
        [inImg, inImg, inImg] (some ModelType.u2net) true faultsW = some r ∧
      r.1.results.length = 3 ∧
      r.1.results.get? 1 =
        some { status := ProcessingStatus.failed, error := some "internal fault" } := by
  obtain ⟨r, h1, h2, h3, h4, h5, h6⟩ :=
    C4_process_batch_shape cfgB2 envExecFail 0 FactoryState.initial
      Metrics.initial [inImg, inImg, inImg] (some ModelType.u2net) true faultsW
      1 rfl
  exact ⟨r, h1, by simpa using h3, h6 1 "internal fault" (by decide) rfl⟩

/-- Witness for C5 (amended): `batch_size = 0` is rejected at
construction; `default_model = "magic"` fails only at request time. -/
theorem C5_witness :
    (PipelineConfig.validate { batch_size := 0 }).isOk = false ∧
    (process { default_model := "magic" } envExecFail 3 FactoryState.initial
        Metrics.initial inImg none false).1 =
      { status := ProcessingStatus.failed,
        error := some (invalidModelTypeMsg "magic"),
        processing_time := some 0 } := by
  constructor
  · rcases hb : (PipelineConfig.validate { batch_size := 0 }).isOk with _ | _
    · rfl
    · exact absurd
        ((C5_validation_surface.1 { batch_size := 0 }).mp hb).1
        (by simp)
  · exact (C5_validation_surface.2 { default_model := "magic" } rfl envExecFail
      3 FactoryState.initial Metrics.initial inImg false).2

/-- Witness for C6: a record checked at time 0 is returned unchanged at
time 0 and recomputed (fresh timestamp 400) at time 400. -/
theorem C6_witness :
    check_health 0 stH ModelType.u2net = (recU, stH) ∧
    check_health 400 stH ModelType.u2net =
      (freshHealthy 400 ModelType.u2net,
        { stH with
            health := setKey stH.health ModelType.u2net
              (some (freshHealthy 400 ModelType.u2net)) }) := by
  refine ⟨(C6_health_ttl 0 stH ModelType.u2net recU rfl).1 (by decide), ?_⟩
  exact ((C6_health_ttl 400 stH ModelType.u2net recU rfl).2 (by decide)).2
    instU rfl

/-- Witness for C7: disabled fallback returns `nil` with the state
untouched; with fallback enabled the walk relation holds on the default
chain excluding the primary. -/
theorem C7_witness :
    get_fallback_model cfgDisabled envExecFail 0 FactoryState.initial none =
      (none, FactoryState.initial) ∧
    FallbackSpec cfgA envExecFail 0 (some ModelType.rmbg2Local)
      cfgA.fallback_chain FactoryState.initial
      (get_fallback_model cfgA envExecFail 0 FactoryState.initial
        (some ModelType.rmbg2Local)) :=
  ⟨(C7_get_fallback_model_walk cfgDisabled envExecFail 0 FactoryState.initial
      none).1 rfl,
    (C7_get_fallback_model_walk cfgA envExecFail 0 FactoryState.initial
      (some ModelType.rmbg2Local)).2 rfl⟩

/-- Witness for C8: the zero-image batch outcome and the initial metrics
snapshot both have rate and average 0. -/
theorem C8_witness :
    ({ total := 0, successful := 0, failed := 0, results := [], total_time := 0,
        average_time := 0 } : BatchProcessingResult).success_rate = 0 ∧
    (get_metrics Metrics.initial).success_rate = 0 ∧
    (get_metrics Metrics.initial).average_time = 0 ∧
    ∃ r, process_batch cfgA envExecFail 0 FactoryState.initial Metrics.initial
        [] none true (fun _ => none) = some r ∧
      r.1.total = 0 ∧ r.1.success_rate = 0 :=
  ⟨C8_success_rate_zero_guards.1 _ rfl,
    (C8_success_rate_zero_guards.2.1 Metrics.initial rfl).1,
    (C8_success_rate_zero_guards.2.1 Metrics.initial rfl).2,
    C8_success_rate_zero_guards.2.2 cfgA envExecFail 0 FactoryState.initial
      Metrics.initial none true (fun _ => none) (by decide)⟩

/-- Witness for C9: two consecutive `get_model` calls for `u2net` return
the same instance. -/
theorem C9_witness :
    (get_model cfgA envExecFail 1000
        (get_model cfgA envExecFail 0 FactoryState.initial ModelType.u2net).2
        ModelType.u2net).1 = some ⟨0, ModelType.u2net⟩ :=
  C9_get_model_idempotent cfgA envExecFail 0 1000 FactoryState.initial
    ModelType.u2net ⟨0, ModelType.u2net⟩ _ rfl

/-- Witness for C10: an instance created through a factory holding
`cfgA` is returned by `get_model` through a factory holding the default
configuration, and `clear_cache` evicts it for all. -/
theorem C10_witness :
    (get_model {} envExecFail 7 stAfterApi ModelType.rmbg2Api).1 =
      some ⟨0, ModelType.rmbg2Api⟩ ∧
    ((clear_cache stAfterApi (some ModelType.rmbg2Api)).instances
        ModelType.rmbg2Api = none ∧
      (clear_cache stAfterApi (some ModelType.rmbg2Api)).health
        ModelType.rmbg2Api = none) ∧
    (∀ t', (clear_cache stAfterApi none).instances t' = none ∧
      (clear_cache stAfterApi none).health t' = none) :=
  C10_shared_class_level_cache cfgA {} envExecFail 0 7 FactoryState.initial
    ModelType.rmbg2Api ⟨0, ModelType.rmbg2Api⟩ stAfterApi rfl

end Pipeline
